import Mathlib

/-!
Verification development for the kc-rs repository: a Keycloak OpenID-Connect
client providing a JWKS-backed token validator (src/jwt.rs), a cached
credential lifecycle manager (src/lib.rs), and HTTP/tonic authentication
middleware (src/middleware/http.rs, src/middleware/tonic.rs).

The Rust code is shallowly embedded: structs become structures, machine
integers and chrono instants/durations become Int (seconds), fallible code
returns Except, and code that can panic returns an explicit outcome type.
Dependencies (jsonwebtoken, http, tonic) are modelled only as far as the
repository exercises them, following the behaviour of the dependency sources.
-/

namespace KcRs

/-! ## Model of the jsonwebtoken dependency (as used by src/jwt.rs) -/

namespace Jwt

/-- Subset of jsonwebtoken ErrorKind that this repository can produce. -/
inductive ErrorKind where
  | InvalidToken
  | InvalidSignature
  | InvalidAlgorithmName
  | InvalidAlgorithm
  | MissingRequiredClaim (claim : String)
  | ExpiredSignature
  | InvalidIssuer
  | InvalidAudience
  | Base64
  | Json
deriving DecidableEq

/-- jsonwebtoken Algorithm. -/
inductive Algorithm where
  | HS256 | HS384 | HS512
  | ES256 | ES384
  | RS256 | RS384 | RS512
  | PS256 | PS384 | PS512
  | EdDSA
deriving DecidableEq

/-- jsonwebtoken Algorithm FromStr. -/
def Algorithm.from_str (s : String) : Except ErrorKind Algorithm :=
  if s = "HS256" then .ok .HS256
  else if s = "HS384" then .ok .HS384
  else if s = "HS512" then .ok .HS512
  else if s = "ES256" then .ok .ES256
  else if s = "ES384" then .ok .ES384
  else if s = "RS256" then .ok .RS256
  else if s = "RS384" then .ok .RS384
  else if s = "RS512" then .ok .RS512
  else if s = "PS256" then .ok .PS256
  else if s = "PS384" then .ok .PS384
  else if s = "PS512" then .ok .PS512
  else if s = "EdDSA" then .ok .EdDSA
  else .error .InvalidAlgorithmName

/-- jsonwebtoken jwk KeyAlgorithm: the alg field of a published JWK.
Includes encryption algorithms that Algorithm.from_str does not accept. -/
inductive KeyAlgorithm where
  | HS256 | HS384 | HS512
  | ES256 | ES384
  | RS256 | RS384 | RS512
  | PS256 | PS384 | PS512
  | EdDSA
  | RSA1_5
  | RSA_OAEP
  | RSA_OAEP_256
deriving DecidableEq

/-- Display form of KeyAlgorithm (what to_string produces). -/
def KeyAlgorithm.toString : KeyAlgorithm → String
  | .HS256 => "HS256"
  | .HS384 => "HS384"
  | .HS512 => "HS512"
  | .ES256 => "ES256"
  | .ES384 => "ES384"
  | .RS256 => "RS256"
  | .RS384 => "RS384"
  | .RS512 => "RS512"
  | .PS256 => "PS256"
  | .PS384 => "PS384"
  | .PS512 => "PS512"
  | .EdDSA => "EdDSA"
  | .RSA1_5 => "RSA1_5"
  | .RSA_OAEP => "RSA-OAEP"
  | .RSA_OAEP_256 => "RSA-OAEP-256"

/-- jsonwebtoken jwk CommonParameters (the fields src/jwt.rs reads). -/
structure CommonParameters where
  key_algorithm : Option KeyAlgorithm
  key_id : Option String
deriving DecidableEq

/-- jsonwebtoken jwk AlgorithmParameters: the key material variants. -/
inductive AlgorithmParameters where
  | RSA (n e : String)
  | EllipticCurve (crv x y : String)
  | OctetKey (value : String)
  | OctetKeyPair (crv x : String)
deriving DecidableEq

/-- jsonwebtoken jwk Jwk: one key of a fetched JWKS. -/
structure Jwk where
  common : CommonParameters
  algorithm : AlgorithmParameters
deriving DecidableEq

/-- jsonwebtoken DecodingKey, abstract over the cryptographic material. -/
inductive DecodingKey where
  | rsa (n e : String)
  | ec (crv x y : String)
  | oct (value : String)
  | okp (crv x : String)
deriving DecidableEq

/-- jsonwebtoken DecodingKey from_jwk: builds key material from a JWK's
public parameters, dispatching on the parameter variant. -/
def DecodingKey.from_jwk (jwk : Jwk) : Except ErrorKind DecodingKey :=
  match jwk.algorithm with
  | .RSA n e => .ok (.rsa n e)
  | .EllipticCurve crv x y => .ok (.ec crv x y)
  | .OctetKey v => .ok (.oct v)
  | .OctetKeyPair crv x => .ok (.okp crv x)

/-- jsonwebtoken Validation (the fields relevant to this repository). -/
structure Validation where
  required_spec_claims : List String
  algorithms : List Algorithm
  leeway : Int
  validate_exp : Bool
  validate_nbf : Bool
  iss : Option (List String)
  sub : Option String
  aud : Option (List String)
  validate_aud : Bool
deriving DecidableEq

/-- jsonwebtoken Validation new: default ruleset for one algorithm. -/
def Validation.new (alg : Algorithm) : Validation :=
  { required_spec_claims := ["exp"]
    algorithms := [alg]
    leeway := 60
    validate_exp := true
    validate_nbf := false
    iss := none
    sub := none
    aud := none
    validate_aud := true }

/-- jsonwebtoken Validation set_required_spec_claims. -/
def Validation.set_required_spec_claims (v : Validation) (items : List String) : Validation :=
  { v with required_spec_claims := items }

/-- jsonwebtoken Validation set_issuer. -/
def Validation.set_issuer (v : Validation) (items : List String) : Validation :=
  { v with iss := some items }

/-- jsonwebtoken Validation set_audience. -/
def Validation.set_audience (v : Validation) (items : List String) : Validation :=
  { v with aud := some items }

/-- A decoded JOSE header (jsonwebtoken Header), as read by decode_header. -/
structure Header where
  alg : Algorithm
  kid : Option String
deriving DecidableEq

/-- The raw payload of a token as seen by claim validation: each of the
nine claims src/token.rs deserializes, tracked with presence. Instants are
epoch seconds. -/
structure ClaimsInput where
  iss : Option String
  sub : Option String
  aud : Option (List String)
  exp : Option Int
  iat : Option Int
  jti : Option String
  preferred_username : Option String
  realm_access : Option (List String)
  resource_access : Option (List (String × List String))
deriving DecidableEq

/-- A token as handed to decode, embedded structurally: an optional parsed
header (none when the compact serialization's header does not parse), the
payload, and which key/algorithm pair its signature verifies under. -/
structure TokenInput where
  header : Option Header
  claims : ClaimsInput
  signedWith : Option (DecodingKey × Algorithm)
deriving DecidableEq

/-- jsonwebtoken decode_header: parse the header without verification. -/
def decode_header (token : TokenInput) : Except ErrorKind Header :=
  match token.header with
  | some h => .ok h
  | none => .error .InvalidToken

/-- Presence of one of the five spec claims jsonwebtoken's validation layer
tracks; names it does not track are skipped by the presence loop. -/
def ClaimsInput.specClaimPresent (c : ClaimsInput) (name : String) : Option Bool :=
  if name = "exp" then some c.exp.isSome
  else if name = "sub" then some c.sub.isSome
  else if name = "iss" then some c.iss.isSome
  else if name = "aud" then some c.aud.isSome
  else if name = "nbf" then some false
  else none

/-- The required-claims presence loop of jsonwebtoken validation. -/
def checkRequiredClaims (claims : ClaimsInput) : List String → Except ErrorKind Unit
  | [] => .ok ()
  | name :: rest =>
    match claims.specClaimPresent name with
    | some false => .error (.MissingRequiredClaim name)
    | _ => checkRequiredClaims claims rest

/-- jsonwebtoken claim validation against a Validation ruleset at instant
now: required-claim presence, expiry with leeway, audience membership when
an accepted audience set is configured, issuer membership when an accepted
issuer set is configured. -/
def validate (claims : ClaimsInput) (options : Validation) (now : Int) : Except ErrorKind Unit := do
  checkRequiredClaims claims options.required_spec_claims
  if options.validate_exp then
    match claims.exp with
    | some exp => if exp < now - options.leeway then throw .ExpiredSignature else pure ()
    | none => pure ()
  if options.validate_aud then
    match options.aud with
    | some correct =>
      match claims.aud with
      | some auds =>
        if auds.all (fun a => correct.all (fun c => c ≠ a)) then throw .InvalidAudience
        else pure ()
      | none => pure ()
    | none => pure ()
  match options.iss with
  | some correct =>
    match claims.iss with
    | some iss => if correct.all (fun c => c ≠ iss) then throw .InvalidIssuer else pure ()
    | none => pure ()
  | none => pure ()

end Jwt

/-! ## Model of src/config.rs and the url crate as it uses it -/

/-- The url crate's Url, reduced to what endpoint construction touches:
a base (scheme plus authority), ordered path segments, and whether the URL
cannot be a base. -/
structure Url where
  base : String
  segments : List String
  cannot_be_a_base : Bool
deriving DecidableEq

/-- url Url path_segments_mut push: append one path segment. -/
def Url.pushSeg (u : Url) (s : String) : Url :=
  { u with segments := u.segments ++ [s] }

/-- Rendered form of a Url (Url as_str). -/
def Url.asStr (u : Url) : String :=
  u.base ++ (u.segments.map (fun s => "/" ++ s)).foldl (fun a b => a ++ b) ""

/-- src/config.rs TokenConfig. -/
structure TokenConfig where
  issuer : Option (List String)
  audience : Option (List String)
deriving DecidableEq

/-- src/config.rs ClientSecret. -/
inductive ClientSecret where
  | Basic (secret : String)
deriving DecidableEq

/-- src/config.rs ClientConfig. -/
structure ClientConfig where
  id : String
  secret : ClientSecret
  realm : String
deriving DecidableEq

/-- src/config.rs HttpConfig (the fields endpoint construction reads). -/
structure HttpConfig where
  auth_server_url : Url
  user_agent : String
  https_only : Bool
deriving DecidableEq

/-- src/config.rs Config. -/
structure Config where
  client : ClientConfig
  token : TokenConfig
  http : HttpConfig
deriving DecidableEq

/-- src/config.rs ServerEndpoints. -/
structure ServerEndpoints where
  issuer : Url
  auth : Url
  token : Url
  introspect : Url
  userinfo : Url
  jwks : Url
deriving DecidableEq

/-- The error taxonomy of src/error.rs, plus the Authentication variant
that src/lib.rs constructs for provider-reported token endpoint errors. -/
inductive Error where
  | UrlParse
  | Http
  | Jwt (kind : Jwt.ErrorKind)
  | Uuid
  | Authentication (code : String) (description : Option String)
deriving DecidableEq

/-- src/config.rs build_url: extend a base URL with slash-separated path
segments. -/
def build_url (base : Url) (path : String) : Url :=
  { base with segments := base.segments ++ path.splitOn "/" }

/-- src/config.rs Config urls: derive the realm issuer URL and the OIDC
endpoint URLs from the auth server base URL and the realm name. -/
def Config.urls (c : Config) : Except Error ServerEndpoints :=
  if c.http.auth_server_url.cannot_be_a_base then .error .UrlParse
  else
    let issuer := (c.http.auth_server_url.pushSeg "realms").pushSeg c.client.realm
    let oidc := build_url issuer "protocol/openid-connect"
    .ok { issuer := issuer
          auth := build_url oidc "auth"
          token := build_url oidc "token"
          introspect := build_url oidc "introspect"
          userinfo := build_url oidc "userinfo"
          jwks := build_url oidc "certs" }

/-! ## Model of src/token.rs -/

/-- src/token.rs RolesClaim. -/
structure RolesClaim where
  roles : List String
deriving DecidableEq

/-- src/token.rs Claims: the typed, verified payload. Subject and token id
are kept as strings (their UUID well-formedness plays no role here). -/
structure Claims where
  issuer : String
  subject : String
  audience : List String
  expires_at : Int
  issued_at : Int
  id : String
  username : String
  realm : RolesClaim
  resource : List (String × RolesClaim)
deriving DecidableEq

/-- Deserialization of the payload into Claims: every field of
src/token.rs Claims is mandatory (none is an Option), so any absent claim
fails deserialization. -/
def ClaimsInputDeserialize (c : Jwt.ClaimsInput) : Except Jwt.ErrorKind Claims :=
  match c.iss, c.sub, c.aud, c.exp, c.iat, c.jti, c.preferred_username,
        c.realm_access, c.resource_access with
  | some iss, some sub, some aud, some exp, some iat, some jti, some pu,
    some ra, some res =>
    .ok { issuer := iss, subject := sub, audience := aud, expires_at := exp
          issued_at := iat, id := jti, username := pu, realm := ⟨ra⟩
          resource := res.map (fun p => (p.1, ⟨p.2⟩)) }
  | _, _, _, _, _, _, _, _, _ => .error .Json

/-- jsonwebtoken TokenData specialized to crate Claims. -/
structure TokenData where
  header : Jwt.Header
  claims : Claims
deriving DecidableEq

/-! ## Model of src/jwt.rs -/

/-- Outcome of running a piece of Rust code that may return Ok, return Err,
or panic. Panicking is distinguished because JwtDecoder construction calls
Option unwrap on remote data. -/
inductive RustResult (α : Type) where
  | ok : α → RustResult α
  | err : Error → RustResult α
  | panicked : String → RustResult α
deriving DecidableEq

/-- src/jwt.rs REQUIRED_CLAIMS. -/
def REQUIRED_CLAIMS : List String :=
  ["iss", "sub", "aud", "exp", "iat", "jti", "preferred_username",
   "realm_access", "resource_access"]

/-- src/jwt.rs Jwk: one usable signing key with its validation ruleset. -/
structure Jwk where
  kid : Option String
  key : Jwt.DecodingKey
  vld : Jwt.Validation
deriving DecidableEq

/-- src/jwt.rs Jwk new, line by line:
unwrap the declared key algorithm (a panic when it is absent), resolve it
via Algorithm from_str, build the decoding key, then build the validation
ruleset: required claims, then the issuer branch (explicit config issuer
list, else the computed issuer URL from Config urls, whose error
propagates), then the audience branch — whose None arm calls set_issuer
with the client id, exactly as the source does. -/
def Jwk.new (jwk : Jwt.Jwk) (config : Config) : RustResult Jwk :=
  match jwk.common.key_algorithm with
  | none => .panicked "called Option::unwrap on a None value"
  | some ka =>
    let alg_name := ka.toString
    match Jwt.Algorithm.from_str alg_name with
    | .error e => .err (.Jwt e)
    | .ok alg =>
      match Jwt.DecodingKey.from_jwk jwk with
      | .error e => .err (.Jwt e)
      | .ok key =>
        let kid := jwk.common.key_id
        let vld := (Jwt.Validation.new alg).set_required_spec_claims REQUIRED_CLAIMS
        let issuerStep : Except Error Jwt.Validation :=
          match config.token.issuer with
          | some issuer => .ok (vld.set_issuer issuer)
          | none =>
            match config.urls with
            | .error e => .error e
            | .ok urls => .ok (vld.set_issuer [urls.issuer.asStr])
        match issuerStep with
        | .error e => .err e
        | .ok vld1 =>
          let vld2 :=
            match config.token.audience with
            | some audience => vld1.set_audience audience
            | none => vld1.set_issuer [config.client.id]
          .ok { kid := kid, key := key, vld := vld2 }

/-- src/jwt.rs JwtDecoder. -/
structure JwtDecoder where
  keys : List Jwk
deriving DecidableEq

/-- The filter_map of JwtDecoder new: each key failing Jwk new with an
error is dropped; a panic in Jwk new aborts the whole construction. -/
def collectKeys (config : Config) : List Jwt.Jwk → RustResult (List Jwk)
  | [] => .ok []
  | jwk :: rest =>
    match Jwk.new jwk config with
    | .panicked msg => .panicked msg
    | .err _ => collectKeys config rest
    | .ok k =>
      match collectKeys config rest with
      | .panicked msg => .panicked msg
      | .err e => .err e
      | .ok ks => .ok (k :: ks)

/-- src/jwt.rs JwtDecoder new: build the store from a fetched key set. -/
def JwtDecoder.new (jwks : List Jwt.Jwk) (config : Config) : RustResult JwtDecoder :=
  match collectKeys config jwks with
  | .panicked msg => .panicked msg
  | .err e => .err e
  | .ok keys => .ok { keys := keys }

/-- src/jwt.rs JwtDecoder get_key_for: parse the header; a store of
exactly one key is used unconditionally; otherwise the first key whose kid
equals the header kid, else an InvalidToken error. -/
def JwtDecoder.get_key_for (d : JwtDecoder) (token : Jwt.TokenInput) : Except Error Jwk :=
  match Jwt.decode_header token with
  | .error e => .error (.Jwt e)
  | .ok header =>
    if d.keys.length = 1 then
      match d.keys with
      | k :: _ => .ok k
      | [] => .error (.Jwt .InvalidToken)
    else
      match d.keys.find? (fun k => k.kid = header.kid) with
      | some k => .ok k
      | none => .error (.Jwt .InvalidToken)

/-- src/jwt.rs Jwk decode = jsonwebtoken decode with this key's material
and ruleset: check the header algorithm is accepted, verify the signature
against the key material, validate claims, deserialize into Claims. -/
def Jwk.decode (k : Jwk) (token : Jwt.TokenInput) (now : Int) : Except Error TokenData :=
  match token.header with
  | none => .error (.Jwt .InvalidToken)
  | some header =>
    if header.alg ∈ k.vld.algorithms then
      if token.signedWith = some (k.key, header.alg) then
        match Jwt.validate token.claims k.vld now with
        | .error e => .error (.Jwt e)
        | .ok _ =>
          match ClaimsInputDeserialize token.claims with
          | .error e => .error (.Jwt e)
          | .ok claims => .ok { header := header, claims := claims }
      else .error (.Jwt .InvalidSignature)
    else .error (.Jwt .InvalidAlgorithm)

/-- src/jwt.rs JwtDecoder decode: select the key, then decode with it. -/
def JwtDecoder.decode (d : JwtDecoder) (token : Jwt.TokenInput) (now : Int) : Except Error TokenData :=
  match d.get_key_for token with
  | .error e => .error e
  | .ok k => k.decode token now

/-! ## Model of src/lib.rs: TokenResponse and ReCloak authenticate

Instants and durations are Int seconds; chrono Local now is passed in as
the parameter now. Grant requests are suspension points whose outcomes are
supplied by a GrantOutcomes oracle (what login_client would return for
each grant shape during this call). -/

/-- src/lib.rs TokenType. -/
inductive TokenType where
  | Bearer
deriving DecidableEq

/-- src/lib.rs TokenResponse: the cached credential. issued_at is stamped
locally at receipt, not taken from the provider. -/
structure TokenResponse where
  token_type : Option TokenType
  access_token : String
  expires_in : Int
  refresh_token : Option String
  refresh_expires_in : Option Int
  issued_at : Int
deriving DecidableEq

/-- src/lib.rs TokenResponse is_access_expired:
issued_at + expires_in < now (strict). -/
def TokenResponse.is_access_expired (t : TokenResponse) (now : Int) : Bool :=
  t.issued_at + t.expires_in < now

/-- src/lib.rs TokenResponse valid_refresh_token: the refresh token when
present and either no refresh lifetime is declared or
issued_at + refresh lifetime > now. -/
def TokenResponse.valid_refresh_token (t : TokenResponse) (now : Int) : Option String :=
  match t.refresh_token, t.refresh_expires_in with
  | some rt, none => some rt
  | some rt, some d => if t.issued_at + d > now then some rt else none
  | _, _ => none

instance instDecEqExcept {ε α : Type} [DecidableEq ε] [DecidableEq α] :
    DecidableEq (Except ε α) := fun a b =>
  match a, b with
  | .ok x, .ok y =>
    if h : x = y then isTrue (congrArg Except.ok h)
    else isFalse (fun hh => h (Except.ok.inj hh))
  | .error x, .error y =>
    if h : x = y then isTrue (congrArg Except.error h)
    else isFalse (fun hh => h (Except.error.inj hh))
  | .ok _, .error _ => isFalse (fun hh => Except.noConfusion hh)
  | .error _, .ok _ => isFalse (fun hh => Except.noConfusion hh)

/-- Outcomes the token endpoint would yield for each grant shape during
one authenticate call (login_client's result for a RefreshToken grant and
for a ClientCredentials grant). -/
structure GrantOutcomes where
  refresh : Except Error TokenResponse
  client_credentials : Except Error TokenResponse
deriving DecidableEq

/-- src/lib.rs ReCloak authenticate, as a pure function of the cached
credential, the current instant, and the grant outcomes. Returns the
call's result and the cache contents after the call. Paths, as in the
source: cached and not expired — return the cached access token; cached,
expired, usable refresh token — refresh grant, whose failure propagates
via the question-mark operator and whose success replaces the cache;
otherwise — client-credentials grant, whose success replaces the cache. -/
def authenticate (cached : Option TokenResponse) (now : Int)
    (grants : GrantOutcomes) : Except Error String × Option TokenResponse :=
  let ccPath : Except Error String × Option TokenResponse :=
    match grants.client_credentials with
    | .error e => (.error e, cached)
    | .ok tr => (.ok tr.access_token, some tr)
  match cached with
  | some token =>
    if token.is_access_expired now = false then
      (.ok token.access_token, cached)
    else
      match token.valid_refresh_token now with
      | some _ =>
        match grants.refresh with
        | .error e => (.error e, cached)
        | .ok tr => (.ok tr.access_token, some tr)
      | none => ccPath
  | none => ccPath

/-- The lock operations authenticate requests on the RwLock around the
cached credential. -/
inductive LockEvent where
  | readAcquire
  | readRelease
  | writeAcquire
  | writeRelease
deriving DecidableEq

/-- The in-order sequence of lock operations authenticate requests, per
path. The read guard is the scrutinee temporary of the if-let in the
source; Rust drops it at the end of the if-let statement (or at function
return from inside it), so on the refresh-success path the write
acquisition at line 104 of src/lib.rs is requested while the read guard
is still live, and the read release comes last. On every other path the
read guard is released before any write acquisition. -/
def authenticateLockTrace (cached : Option TokenResponse) (now : Int)
    (grants : GrantOutcomes) : List LockEvent :=
  let ccTrace : List LockEvent :=
    match grants.client_credentials with
    | .error _ => [.readAcquire, .readRelease]
    | .ok _ => [.readAcquire, .readRelease, .writeAcquire, .writeRelease]
  match cached with
  | some token =>
    if token.is_access_expired now = false then
      [.readAcquire, .readRelease]
    else
      match token.valid_refresh_token now with
      | some _ =>
        match grants.refresh with
        | .error _ => [.readAcquire, .readRelease]
        | .ok _ => [.readAcquire, .writeAcquire, .writeRelease, .readRelease]
      | none => ccTrace
  | none => ccTrace

/-- Whether a trace requests a write acquisition at a point where at least
one read guard acquired in the same trace has not yet been released. -/
def writeWhileReadHeld : List LockEvent → Nat → Bool
  | [], _ => false
  | .readAcquire :: rest, depth => writeWhileReadHeld rest (depth + 1)
  | .readRelease :: rest, depth => writeWhileReadHeld rest (depth - 1)
  | .writeAcquire :: rest, depth =>
      if depth ≠ 0 then true else writeWhileReadHeld rest depth
  | .writeRelease :: rest, depth => writeWhileReadHeld rest depth

/-! ## Model of the http crate's header values and UTF-8 byte encoding -/

/-- UTF-8 encoding of one Unicode scalar value (RFC 3629). -/
def utf8EncodeChar (c : Char) : List Nat :=
  let n := c.toNat
  if n < 0x80 then [n]
  else if n < 0x800 then
    [0xC0 + n / 0x40, 0x80 + n % 0x40]
  else if n < 0x10000 then
    [0xE0 + n / 0x1000, 0x80 + (n / 0x40) % 0x40, 0x80 + n % 0x40]
  else
    [0xF0 + n / 0x40000, 0x80 + (n / 0x1000) % 0x40,
     0x80 + (n / 0x40) % 0x40, 0x80 + n % 0x40]

/-- The byte sequence of a Rust string (str as_bytes). -/
def utf8Bytes (s : String) : List Nat :=
  s.data.flatMap utf8EncodeChar

/-- The http crate's legality predicate for one byte of a HeaderValue:
horizontal tab, or any byte at least 32 other than DEL. -/
def validHeaderByte (b : Nat) : Bool :=
  b == 9 || (32 ≤ b && b ≠ 127)

/-- A byte sequence is a legal HeaderValue when every byte is legal.
HeaderValue from_maybe_shared_unchecked requires this of its argument. -/
def validHeaderValue (bytes : List Nat) : Bool :=
  bytes.all validHeaderByte

/-- The http crate's visible-ASCII predicate used by HeaderValue to_str. -/
def visibleAscii (b : Nat) : Bool :=
  (32 ≤ b && b < 127) || b == 9

/-- HeaderValue to_str: text only when every byte is visible ASCII. -/
def headerToStr (bytes : List Nat) : Option (List Char) :=
  if bytes.all visibleAscii then some (bytes.map Char.ofNat) else none

/-! ## Model of src/middleware/http.rs and src/middleware/tonic.rs

Middleware-level strings are lists of characters; the validator is
abstracted as a function from the extracted token text to a decode
result, standing for ReCloak decode_token. -/

/-- Rust str strip_prefix on character lists: the remainder after the
prefix when the string starts with it, else none. -/
def stripPrefixChars : List Char → List Char → Option (List Char)
  | [], s => some s
  | _ :: _, [] => none
  | p :: ps, c :: cs => if p = c then stripPrefixChars ps cs else none

theorem stripPrefixChars_length_le :
    ∀ (pat s r : List Char), stripPrefixChars pat s = some r → r.length ≤ s.length := by
  intro pat
  induction pat with
  | nil =>
    intro s r h
    simp only [stripPrefixChars, Option.some.injEq] at h
    subst h
    exact Nat.le_refl _
  | cons p ps ih =>
    intro s r h
    match s with
    | [] => exact absurd h (by simp [stripPrefixChars])
    | c :: cs =>
      simp only [stripPrefixChars] at h
      by_cases hpc : p = c
      · rw [if_pos hpc] at h
        have hle := ih cs r h
        simp only [List.length_cons]
        omega
      · rw [if_neg hpc] at h
        exact absurd h (by simp)

theorem stripPrefixChars_length_lt (pat s r : List Char) (hne : pat ≠ [])
    (h : stripPrefixChars pat s = some r) : r.length < s.length := by
  match pat with
  | [] => exact absurd rfl hne
  | p :: ps =>
    match s with
    | [] => exact absurd h (by simp [stripPrefixChars])
    | c :: cs =>
      simp only [stripPrefixChars] at h
      by_cases hpc : p = c
      · rw [if_pos hpc] at h
        have hle := stripPrefixChars_length_le ps cs r h
        simp only [List.length_cons]
        omega
      · rw [if_neg hpc] at h
        exact absurd h (by simp)

/-- The character list of the bearer prefix literal. -/
def bearerPrefixChars : List Char := "Bearer ".data

/-- Rust str trim_start_matches specialized to the bearer prefix literal:
repeatedly remove a leading occurrence while one is present. -/
def trimStartBearer (s : List Char) : List Char :=
  match h : stripPrefixChars bearerPrefixChars s with
  | some rest => trimStartBearer rest
  | none => s
termination_by s.length
decreasing_by
  exact stripPrefixChars_length_lt bearerPrefixChars s rest (by decide) h

theorem trimStartBearer_of_none {s : List Char}
    (h : stripPrefixChars bearerPrefixChars s = none) : trimStartBearer s = s := by
  unfold trimStartBearer
  split
  · rename_i rest heq
    rw [h] at heq
    exact Option.noConfusion heq
  · rfl

/-- src/middleware/http.rs ServerAuthError. -/
inductive ServerAuthError where
  | MissingHeader
  | InvalidHeader
  | InvalidToken
deriving DecidableEq

/-- src/middleware/http.rs RequestAuthorization: the extension a server
layer attaches on success — the decoded claims together with the raw
authorization header value. -/
structure RequestAuthorization where
  claims : Claims
  auth_header : List Nat
deriving DecidableEq

/-- A request's typed extension map, restricted to the two entry types
this repository touches: crate Claims and RequestAuthorization. -/
structure Extensions where
  claims : Option Claims
  requestAuthorization : Option RequestAuthorization
deriving DecidableEq

/-- An http Request, reduced to the parts the middleware reads and
writes: the authorization header value (bytes) and the extensions. -/
structure HttpRequest where
  authorization : Option (List Nat)
  extensions : Extensions
deriving DecidableEq

/-- src/middleware/http.rs ServerAuthService call, up to the point the
inner service is invoked: the guard consults the Claims extension; then
the authorization header is required, required to be text, required to
carry the bearer prefix; the remainder goes to the validator; on success
a RequestAuthorization extension is attached. Returns the forwarded
request or the rejection, paired with how many times the validator ran. -/
def serverAuthProcess (decodeToken : List Char → Except Error TokenData)
    (req : HttpRequest) : Except ServerAuthError HttpRequest × Nat :=
  if (req.extensions.claims).isSome then (.ok req, 0)
  else
    match req.authorization with
    | none => (.error .MissingHeader, 0)
    | some auth_header =>
      match headerToStr auth_header with
      | none => (.error .InvalidHeader, 0)
      | some header_str =>
        match stripPrefixChars bearerPrefixChars header_str with
        | none => (.error .InvalidToken, 0)
        | some bearer =>
          match decodeToken bearer with
          | .error _ => (.error .InvalidToken, 1)
          | .ok token =>
            (.ok { req with
                    extensions.requestAuthorization :=
                      some { claims := token.claims
                             auth_header := auth_header } }, 1)

/-- What a server middleware call produces: a rejection without invoking
the inner handler, or the inner handler's result on the forwarded
request. -/
inductive ServerCallResult (ρ : Type) where
  | rejected : ServerAuthError → ServerCallResult ρ
  | handled : ρ → ServerCallResult ρ
deriving DecidableEq

/-- src/middleware/http.rs ServerAuthService call: reject without calling
the inner service, or call it on the forwarded request. -/
def serverAuthCall {ρ : Type} (decodeToken : List Char → Except Error TokenData)
    (inner : HttpRequest → ρ) (req : HttpRequest) : ServerCallResult ρ × Nat :=
  match serverAuthProcess decodeToken req with
  | (.error e, n) => (.rejected e, n)
  | (.ok fwd, n) => (.handled (inner fwd), n)

/-- Two nested server layers (the same service wrapped twice): the outer
layer processes first; when it forwards, the inner layer processes its
output. The count sums the validator invocations of both layers. -/
def serverAuthTwice (decodeToken : List Char → Except Error TokenData)
    (req : HttpRequest) : Except ServerAuthError HttpRequest × Nat :=
  match serverAuthProcess decodeToken req with
  | (.error e, n) => (.error e, n)
  | (.ok fwd, n) =>
    match serverAuthProcess decodeToken fwd with
    | (res, m) => (res, n + m)

/-- The byte buffer the client middleware builds for the authorization
header: the bearer prefix bytes followed by the token's bytes. -/
def bearerHeaderBytes (token : String) : List Nat :=
  utf8Bytes "Bearer " ++ utf8Bytes token

/-- src/middleware/http.rs ClientAuthService call, header-mutation part:
pass-through when a Claims extension is present; on authenticate success
insert the bearer authorization header; on authenticate failure forward
the request unmodified. -/
def clientAuthForward (authResult : Except Error String)
    (req : HttpRequest) : HttpRequest :=
  if (req.extensions.claims).isSome then req
  else
    match authResult with
    | .ok token => { req with authorization := some (bearerHeaderBytes token) }
    | .error _ => req

/-- src/middleware/http.rs ClientAuthService call: the inner service is
always invoked, on the (possibly augmented) request, and its result is
the call's result — an authenticate error is logged, never returned. -/
def clientAuthCall {ρ : Type} (authResult : Except Error String)
    (inner : HttpRequest → ρ) (req : HttpRequest) : ρ :=
  inner (clientAuthForward authResult req)

/-- tonic Status, reduced to the two constructors the repository uses. -/
inductive Status where
  | unauthenticated (msg : String)
  | permissionDenied (msg : String)
deriving DecidableEq

/-- A tonic Request, reduced to the parts the interceptor touches: the
metadata entry under the lowercase authorization key (ASCII metadata
value bytes) and the Claims extension. -/
structure TonicRequest where
  authorizationMeta : Option (List Nat)
  extClaims : Option Claims
deriving DecidableEq

/-- tonic MetadataValue to_str: same visible-ASCII contract as
HeaderValue to_str. -/
def metadataToStr (bytes : List Nat) : Option (List Char) :=
  headerToStr bytes

/-- src/middleware/tonic.rs AuthInterceptor intercept: require the
metadata entry, require it to be text, then trim_start_matches the bearer
prefix — a value without the prefix is passed to the validator whole —
and on successful decode insert the Claims extension. -/
def intercept (decodeToken : List Char → Except Error TokenData)
    (req : TonicRequest) : Except Status TonicRequest :=
  match req.authorizationMeta with
  | none => .error (.unauthenticated "missing authorization header")
  | some v =>
    match metadataToStr v with
    | none => .error (.unauthenticated "invalid authorization header")
    | some hdr =>
      let token := trimStartBearer hdr
      match decodeToken token with
      | .error _ => .error (.unauthenticated "invalid token")
      | .ok td => .ok { req with extClaims := some td.claims }

/-! ## Concrete fixtures -/

/-- A base URL fixture. -/
def url0 : Url :=
  { base := "https://kc.example.com", segments := [], cannot_be_a_base := false }

/-- A configuration with no explicit issuer or audience list. -/
def cfg0 : Config :=
  { client := { id := "svc-client", secret := .Basic "s3cret", realm := "acme" }
    token := { issuer := none, audience := none }
    http := { auth_server_url := url0, user_agent := "ua", https_only := false } }

/-- A JWKS key with a recognized signing algorithm. -/
def jwkRsa : Jwt.Jwk :=
  { common := { key_algorithm := some .RS256, key_id := some "k1" }
    algorithm := .RSA "n0" "e0" }

/-- A JWKS key whose declared algorithm is absent. -/
def jwkNoAlg : Jwt.Jwk :=
  { common := { key_algorithm := none, key_id := some "k2" }
    algorithm := .RSA "n1" "e1" }

/-- A JWKS key whose declared algorithm is an encryption algorithm that
Algorithm from_str does not recognize. -/
def jwkUnrecognized : Jwt.Jwk :=
  { common := { key_algorithm := some .RSA_OAEP, key_id := some "k3" }
    algorithm := .RSA "n2" "e2" }

/-- The validation ruleset Jwk new actually produces from cfg0. -/
def vldBug : Jwt.Validation :=
  { required_spec_claims := REQUIRED_CLAIMS
    algorithms := [.RS256]
    leeway := 60
    validate_exp := true
    validate_nbf := false
    iss := some ["svc-client"]
    sub := none
    aud := none
    validate_aud := true }

/-- Signing keys for key-selection fixtures. -/
def keyA : Jwk := { kid := some "a", key := .rsa "na" "ea", vld := vldBug }

/-- A second signing key with a different kid. -/
def keyB : Jwk := { kid := some "b", key := .rsa "nb" "eb", vld := vldBug }

/-- A single-key store. -/
def dSingle : JwtDecoder := { keys := [keyA] }

/-- A two-key store. -/
def dTwo : JwtDecoder := { keys := [keyA, keyB] }

/-- Payload with every claim present. -/
def claimsFull : Jwt.ClaimsInput :=
  { iss := some "svc-client", sub := some "11111111-1111-1111-1111-111111111111"
    aud := some ["other-service"], exp := some 2000, iat := some 900
    jti := some "22222222-2222-2222-2222-222222222222"
    preferred_username := some "alice", realm_access := some ["user"]
    resource_access := some [("other-service", ["viewer"])] }

/-- A token with no declared kid, signed with the material of keyA. -/
def tokNoKid : Jwt.TokenInput :=
  { header := some { alg := .RS256, kid := none }
    claims := claimsFull
    signedWith := some (.rsa "na" "ea", .RS256) }

/-- A token whose declared kid matches no store entry. -/
def tokBadKid : Jwt.TokenInput :=
  { header := some { alg := .RS256, kid := some "zz" }
    claims := claimsFull
    signedWith := some (.rsa "na" "ea", .RS256) }

/-- Issuer URL a configuration computes, when it computes one. -/
def issuerUrlOf (c : Config) : Option String :=
  match c.urls with
  | .ok u => some u.issuer.asStr
  | .error _ => none

/-- An expired cached credential carrying a usable refresh token. -/
def trStale : TokenResponse :=
  { token_type := some .Bearer, access_token := "staletok", expires_in := 60
    refresh_token := some "refreshtok", refresh_expires_in := none
    issued_at := 0 }

/-- The provider-reported error of a failing refresh grant. -/
def errRefresh : Error := .Authentication "invalid_grant" (some "session not active")

/-- The credential a successful client-credentials grant would yield. -/
def trFresh : TokenResponse :=
  { token_type := some .Bearer, access_token := "freshtok", expires_in := 60
    refresh_token := none, refresh_expires_in := none, issued_at := 100 }

/-- Grant outcomes: refresh fails, client-credentials succeeds. -/
def g2 : GrantOutcomes :=
  { refresh := .error errRefresh, client_credentials := .ok trFresh }

/-- A cached credential whose access lifetime ends exactly at instant 10. -/
def tr7 : TokenResponse :=
  { token_type := some .Bearer, access_token := "tok7", expires_in := 10
    refresh_token := none, refresh_expires_in := none, issued_at := 0 }

/-- Grant outcomes where every grant fails, so any returned token must
have come from the cache. -/
def g7 : GrantOutcomes :=
  { refresh := .error (.Authentication "refused" none)
    client_credentials := .error (.Authentication "refused" none) }

/-- The credential a successful refresh grant would yield. -/
def trRefreshed : TokenResponse :=
  { token_type := some .Bearer, access_token := "newtok", expires_in := 60
    refresh_token := some "r2", refresh_expires_in := some 1800
    issued_at := 100 }

/-- Grant outcomes where both grants succeed. -/
def g4 : GrantOutcomes :=
  { refresh := .ok trRefreshed, client_credentials := .ok trRefreshed }

/-! ## Claim C5: key selection -/

/-- Claim C5: for a store holding exactly one key, that key is selected
unconditionally and decoding proceeds with it, whatever the declared kid
of the token (it is never consulted); for a store holding zero or at
least two keys, decode fails with the invalid-token error whenever the
declared kid of the token matches no store entry. -/
theorem C5_key_selection :
    (∀ (d : JwtDecoder) (k : Jwk) (t : Jwt.TokenInput) (h : Jwt.Header),
      d.keys = [k] → t.header = some h →
      d.get_key_for t = .ok k ∧ ∀ now, d.decode t now = k.decode t now) ∧
    (∀ (d : JwtDecoder) (t : Jwt.TokenInput) (h : Jwt.Header),
      d.keys.length ≠ 1 → t.header = some h →
      (∀ k ∈ d.keys, k.kid ≠ h.kid) →
      ∀ now, d.decode t now = .error (.Jwt .InvalidToken)) := by
  constructor
  · intro d k t h hd ht
    have hsel : d.get_key_for t = .ok k := by
      simp [JwtDecoder.get_key_for, Jwt.decode_header, ht, hd]
    exact ⟨hsel, fun now => by simp [JwtDecoder.decode, hsel]⟩
  · intro d t h hlen ht hmiss now
    have hfind : d.keys.find? (fun k => k.kid = h.kid) = none := by
      rw [List.find?_eq_none]
      intro k hk
      simpa using hmiss k hk
    have hsel : d.get_key_for t = .error (.Jwt .InvalidToken) := by
      simp [JwtDecoder.get_key_for, Jwt.decode_header, ht, hlen, hfind]
    simp [JwtDecoder.decode, hsel]

/-- Witness for C5 at concrete stores: the single-key store selects its
key for a token with no kid; the two-key store rejects a token whose kid
matches neither entry. -/
theorem C5_key_selection_witness :
    (dSingle.get_key_for tokNoKid = .ok keyA ∧
      ∀ now, dSingle.decode tokNoKid now = keyA.decode tokNoKid now) ∧
    dTwo.decode tokBadKid 1000 = .error (.Jwt .InvalidToken) :=
  ⟨C5_key_selection.1 dSingle keyA tokNoKid { alg := .RS256, kid := none }
      rfl rfl,
   C5_key_selection.2 dTwo tokBadKid { alg := .RS256, kid := some "zz" }
      (by decide) rfl (by decide) 1000⟩

/-! ## Claim C7: expiry boundary -/

/-- Claim C7 counterexample: a credential issued at 0 with lifetime 10,
observed at instant 10 (issuance + lifetime = now). The claim says it is
already expired and authenticate does not return it from the cache; the
code computes strict less-than, reports it unexpired, and returns it from
the cache even though every grant would fail. -/
theorem C7_counterexample :
    tr7.is_access_expired 10 = false ∧
    authenticate (some tr7) 10 g7 = (.ok "tok7", some tr7) := by decide

/-- Claim C7 as amended: the cached credential counts as access-expired
exactly when issuance + lifetime is strictly below now; at the boundary
instant it still counts as valid and authenticate returns it unchanged
from the cache. -/
theorem C7_amended :
    ∀ (t : TokenResponse) (now : Int) (g : GrantOutcomes),
      (t.is_access_expired now = true ↔ t.issued_at + t.expires_in < now) ∧
      (t.issued_at + t.expires_in = now →
        authenticate (some t) now g = (.ok t.access_token, some t)) := by
  intro t now g
  constructor
  · simp [TokenResponse.is_access_expired]
  · intro hb
    have hexp : t.is_access_expired now = false := by
      simp [TokenResponse.is_access_expired]
      omega
    simp [authenticate, hexp]

/-- Witness for the amended C7 at the concrete boundary fixture. -/
theorem C7_amended_witness :
    (tr7.is_access_expired 10 = true ↔ tr7.issued_at + tr7.expires_in < 10) ∧
    authenticate (some tr7) 10 g7 = (.ok tr7.access_token, some tr7) :=
  ⟨(C7_amended tr7 10 g7).1, (C7_amended tr7 10 g7).2 (by decide)⟩

/-! ## Claim C2: refresh failure handling -/

/-- Claim C2 counterexample: cached credential expired at instant 100
with a usable refresh token; the refresh grant fails while a
client-credentials grant would succeed. The claim says authenticate then
performs the client-credentials grant, replaces the cache with its result
and returns the fresh token; the code propagates the refresh error with
the question-mark operator, leaving the cache untouched. -/
theorem C2_counterexample :
    authenticate (some trStale) 100 g2 = (.error errRefresh, some trStale) ∧
    authenticate (some trStale) 100 g2 ≠
      (.ok trFresh.access_token, some trFresh) := by decide

/-- Claim C2 as amended: when the cached access token is expired and a
usable refresh token is present, a refresh-grant failure is returned to
the caller as-is and the cache keeps the stale credential; the fresh
client-credentials grant happens only when no usable refresh token
exists, and only its own outcome is returned. -/
theorem C2_amended :
    (∀ (t : TokenResponse) (now : Int) (g : GrantOutcomes) (e : Error),
      t.is_access_expired now = true →
      (t.valid_refresh_token now).isSome = true →
      g.refresh = .error e →
      authenticate (some t) now g = (.error e, some t)) ∧
    (∀ (t : TokenResponse) (now : Int) (g : GrantOutcomes),
      t.is_access_expired now = true →
      t.valid_refresh_token now = none →
      authenticate (some t) now g =
        (match g.client_credentials with
         | .error e => (.error e, some t)
         | .ok tr => (.ok tr.access_token, some tr))) := by
  constructor
  · intro t now g e hexp href herr
    obtain ⟨rt, hrt⟩ := Option.isSome_iff_exists.mp href
    simp [authenticate, hexp, hrt, herr]
  · intro t now g hexp href
    simp [authenticate, hexp, href]

/-- Witness for the amended C2 at the concrete stale fixture. -/
theorem C2_amended_witness :
    authenticate (some trStale) 100 g2 = (.error errRefresh, some trStale) :=
  C2_amended.1 trStale 100 g2 errRefresh (by decide) (by decide) (by decide)

/-! ## Claim C8: outbound fail-open -/

/-- Claim C8: whenever authenticate fails on the outbound path, the
client middleware forwards the original request unmodified — no
authorization header is added — and the call still returns the result of
the inner service on that request; the authentication error is not
propagated. -/
theorem C8_outbound_fail_open :
    ∀ {ρ : Type} (inner : HttpRequest → ρ) (e : Error) (req : HttpRequest),
      clientAuthForward (.error e) req = req ∧
      clientAuthCall (.error e) inner req = inner req := by
  intro ρ inner e req
  have hfwd : clientAuthForward (.error e) req = req := by
    by_cases h : (req.extensions.claims).isSome <;>
      simp [clientAuthForward, h]
  exact ⟨hfwd, by simp [clientAuthCall, hfwd]⟩

/-! ## Claim C1: default issuer and audience -/

/-- Claim C1, evaluated at the failing configuration (no explicit issuer
list, no explicit audience list): the audience None arm of Jwk new calls
set_issuer with the client id, so the produced ruleset has no accepted
audience at all and its accepted issuer is the client id instead of the
computed issuer URL; a token carrying a foreign audience, and the client
id as its issuer, then passes claim validation. -/
theorem C1_audience_default_bug :
    Jwk.new jwkRsa cfg0 =
      .ok { kid := some "k1", key := .rsa "n0" "e0", vld := vldBug } ∧
    vldBug.aud = none ∧
    vldBug.iss = some ["svc-client"] ∧
    issuerUrlOf cfg0 = some "https://kc.example.com/realms/acme" ∧
    vldBug.iss ≠ some ["https://kc.example.com/realms/acme"] ∧
    Jwt.validate claimsFull vldBug 1000 = .ok () := by decide

/-! ## Claim C3: totality of construction -/

/-- Claim C3, evaluated at the failing key set: a key whose declared
algorithm identifier is unrecognized is indeed silently dropped (first
conjunct), but a key whose algorithm identifier is absent makes Jwk new
unwrap a None, so store construction panics instead of dropping the key
(second conjunct). -/
theorem C3_construction_panics_on_missing_alg :
    JwtDecoder.new [jwkUnrecognized] cfg0 = .ok { keys := [] } ∧
    JwtDecoder.new [jwkRsa, jwkNoAlg] cfg0 =
      .panicked "called Option::unwrap on a None value" := by decide

/-! ## Claim C4: lock ordering in authenticate -/

/-- Claim C4, evaluated at the failing state (expired access token,
usable refresh token, refresh grant succeeding): the read guard is the
scrutinee temporary of the if-let in authenticate and lives to the end of
that block, so the write acquisition for storing the refreshed credential
is requested while the read lock is still held — the trace releases the
read lock last and the write-while-read-held detector fires. On the
client-credentials path (empty cache) the read lock is released before
the write lock is requested. -/
theorem C4_read_lock_held_across_write :
    authenticateLockTrace (some trStale) 100 g4 =
      [.readAcquire, .writeAcquire, .writeRelease, .readRelease] ∧
    writeWhileReadHeld (authenticateLockTrace (some trStale) 100 g4) 0 = true ∧
    writeWhileReadHeld (authenticateLockTrace none 100 g4) 0 = false := by decide

/-! ## Claim C9: layering idempotence -/

/-- A request carrying a valid bearer header and no extensions. -/
def req9 : HttpRequest :=
  { authorization := some (utf8Bytes "Bearer validtoken")
    extensions := { claims := none, requestAuthorization := none } }

/-- Claims fixture for the middleware claims. -/
def claims6 : Claims :=
  { issuer := "iss", subject := "sub1", audience := ["aud1"]
    expires_at := 2000, issued_at := 0, id := "jti1", username := "alice"
    realm := ⟨["user"]⟩, resource := [] }

/-- Decoded token fixture for the middleware claims. -/
def td6 : TokenData :=
  { header := { alg := .RS256, kid := some "k1" }, claims := claims6 }

/-- A validator accepting exactly the token text validtoken. -/
def decode6 : List Char → Except Error TokenData :=
  fun s => if s = "validtoken".data then .ok td6 else .error (.Jwt .InvalidToken)

/-- Claim C9, evaluated at the failing request: wrapping the handler in
the server middleware twice runs the validator twice on one request —
the success path attaches a RequestAuthorization extension while the
re-entry guard tests for a Claims extension, which is never inserted by
this middleware, so the guard of the inner layer does not fire (first
conjunct). The guard itself does work when a Claims extension is present:
such a request is forwarded unchanged with the validator never invoked
(second conjunct). -/
theorem C9_double_layer_validates_twice :
    (serverAuthTwice decode6 req9).2 = 2 ∧
    serverAuthProcess decode6 { req9 with extensions.claims := some claims6 } =
      (.ok { req9 with extensions.claims := some claims6 }, 0) := by decide

/-! ## Claim C10: header value validity -/

/-- Claim C10 counterexample: the access token is an arbitrary JSON
string, and a JSON string may contain a newline; for such a token the
byte buffer the outbound middleware hands to the unchecked HeaderValue
constructor is not a legal header value. -/
theorem C10_counterexample :
    validHeaderValue (bearerHeaderBytes "bad\ntoken") = false := by decide

/-- Claim C10 as amended: the constructed buffer is a legal header value
exactly when the tokens own UTF-8 bytes are all legal header-value
bytes — the bearer prefix contributes only legal bytes — and tokens
containing control characters violate this. -/
theorem C10_amended :
    ∀ (token : String),
      validHeaderValue (bearerHeaderBytes token) =
        validHeaderValue (utf8Bytes token) := by
  intro t
  have hpre : (utf8Bytes "Bearer ").all validHeaderByte = true := by decide
  simp [bearerHeaderBytes, validHeaderValue, List.all_append, hpre]

/-! ## Claim C6: bearer prefix handling -/

/-- A request presenting a valid token in its authorization metadata
without the bearer prefix. -/
def reqTonic : TonicRequest :=
  { authorizationMeta := some (utf8Bytes "validtoken"), extClaims := none }

/-- Claim C6 counterexample: a request presenting a syntactically valid,
correctly signed token in its authorization metadata without the bearer
prefix. The RPC interceptor does not reject it: trim_start_matches leaves
a prefixless value whole, the raw value reaches the validator, and the
request is authenticated with the decoded claims attached. -/
theorem C6_counterexample :
    intercept decode6 reqTonic =
      .ok { authorizationMeta := some (utf8Bytes "validtoken")
            extClaims := some claims6 } := by
  have h1 : metadataToStr (utf8Bytes "validtoken") = some ("validtoken".data) := by
    decide
  have h2 : trimStartBearer ("validtoken".data) = "validtoken".data :=
    trimStartBearer_of_none (by decide)
  simp [intercept, reqTonic, h1, h2, decode6, td6]

/-- Claim C6 as amended: the inbound HTTP middleware rejects an
authorization value lacking the bearer prefix as an invalid token without
invoking the validator (first conjunct); the RPC interceptor instead
strips leading repetitions of the prefix and hands the remainder to the
validator (second conjunct), and a value without any leading prefix is
handed over whole (third conjunct), so an unprefixed valid token does
authenticate on the RPC path. -/
theorem C6_amended :
    (∀ (decodeToken : List Char → Except Error TokenData) (req : HttpRequest)
        (v : List Nat) (s : List Char),
      req.extensions.claims = none →
      req.authorization = some v →
      headerToStr v = some s →
      stripPrefixChars bearerPrefixChars s = none →
      serverAuthProcess decodeToken req = (.error .InvalidToken, 0)) ∧
    (∀ (decodeToken : List Char → Except Error TokenData) (req : TonicRequest)
        (v : List Nat) (s : List Char),
      req.authorizationMeta = some v →
      metadataToStr v = some s →
      intercept decodeToken req =
        (match decodeToken (trimStartBearer s) with
         | .error _ => .error (.unauthenticated "invalid token")
         | .ok td => .ok { req with extClaims := some td.claims })) ∧
    (∀ (s : List Char),
      stripPrefixChars bearerPrefixChars s = none → trimStartBearer s = s) := by
  refine ⟨?_, ?_, ?_⟩
  · intro dec req v s hc ha hts hsp
    simp [serverAuthProcess, hc, ha, hts, hsp]
  · intro dec req v s ha hts
    have hts2 : headerToStr v = some s := hts
    simp [intercept, ha, metadataToStr, hts2]
  · intro s hnone
    exact trimStartBearer_of_none hnone

/-- Witness for the amended C6: a Basic credential is rejected by the
HTTP middleware with the validator never invoked, and the interceptor on
an unprefixed token behaves as the validator applied to the whole value,
which here is left untouched by the trimming. -/
theorem C6_amended_witness :
    serverAuthProcess decode6
        { authorization := some (utf8Bytes "Basic xyz")
          extensions := { claims := none, requestAuthorization := none } } =
      (.error .InvalidToken, 0) ∧
    intercept decode6
        { authorizationMeta := some (utf8Bytes "validtoken"), extClaims := none } =
      (match decode6 (trimStartBearer "validtoken".data) with
       | .error _ => .error (.unauthenticated "invalid token")
       | .ok td => .ok { authorizationMeta := some (utf8Bytes "validtoken")
                         extClaims := some td.claims }) ∧
    trimStartBearer "validtoken".data = "validtoken".data :=
  ⟨C6_amended.1 decode6
      { authorization := some (utf8Bytes "Basic xyz")
        extensions := { claims := none, requestAuthorization := none } }
      (utf8Bytes "Basic xyz") "Basic xyz".data rfl rfl (by decide) (by decide),
   C6_amended.2.1 decode6
      { authorizationMeta := some (utf8Bytes "validtoken"), extClaims := none }
      (utf8Bytes "validtoken") "validtoken".data rfl (by decide),
   C6_amended.2.2 "validtoken".data (by decide)⟩

end KcRs
